import Mathlib

/-!
Verification of the HW30 classifieds backend (Django app `ads`) against its
natural-language specification.  The data model follows `src/ads/models.py`;
the HTTP handlers follow `src/ads/views.py`; Django ORM / paginator behaviour
that the handlers delegate to is embedded with its documented semantics.
Python exceptions (AttributeError, KeyError, IntegrityError, TypeError,
NameError, FieldError) are modelled as `Except.error`; an `Except.error`
result means the request dies with an unhandled exception (HTTP 500) and the
returned store/response are lost.
-/

deriving instance DecidableEq for Except

namespace HW30

/-- `ads.models.Category` (src/ads/models.py): `name` CharField(max_length=20),
`is_active` BooleanField(default=True). -/
structure Category where
  id : Nat
  name : String
  is_active : Bool
deriving DecidableEq, Repr

/-- `ads.models.Location`: nullable `name` CharField(max_length=200) and nullable
decimal `lat`/`lng`. -/
structure Location where
  id : Nat
  name : Option String
  lat : Option Rat
  lng : Option Rat
deriving DecidableEq, Repr

/-- `ads.models.AdUser`: the m2m `location_names` field is kept as the list of
associated Location ids (the rows of the join table for this user, in insertion
order). -/
structure AdUser where
  id : Nat
  first_name : String
  last_name : Option String
  username : String
  password : String
  role : String
  age : Nat
  location_ids : List Nat
deriving DecidableEq, Repr

/-- `ads.models.Ad`: `author` is a nullable FK to AdUser (`on_delete=CASCADE`,
`null=True`), `category` a non-nullable FK to Category (`on_delete=CASCADE`). -/
structure Ad where
  id : Nat
  name : String
  price : Nat
  description : Option String
  image : Option String
  is_published : Bool
  author : Option Nat
  category : Nat
deriving DecidableEq, Repr

/-- The relational store the Django ORM persists into. -/
structure Store where
  categories : List Category
  locations : List Location
  users : List AdUser
  ads : List Ad
deriving DecidableEq, Repr

def findCategory (s : Store) (cid : Nat) : Option Category :=
  s.categories.find? (fun c => c.id == cid)

def findUser (s : Store) (uid : Nat) : Option AdUser :=
  s.users.find? (fun u => u.id == uid)

def findUserByUsername (s : Store) (un : String) : Option AdUser :=
  s.users.find? (fun u => u.username == un)

def findAd (s : Store) (aid : Nat) : Option Ad :=
  s.ads.find? (fun a => a.id == aid)

/-- JSON values, for the response bodies the views build with `JsonResponse`.
The only arrays these views emit are arrays of (possibly null) strings, kept
as one flat constructor so equality stays derivable. -/
inductive JVal where
  | str : String → JVal
  | num : Nat → JVal
  | bool : Bool → JVal
  | null : JVal
  | strArr : List (Option String) → JVal
deriving DecidableEq, Repr

/-- A nullable string field serialized to JSON. -/
def optStr : Option String → JVal
  | some s => .str s
  | none => .null

/-- An HTTP JSON response: status code plus a JSON object body (key/value list). -/
structure HResp where
  status : Nat
  body : List (String × JVal)
deriving DecidableEq, Repr

/-! ### Django paginator semantics (django.core.paginator.Paginator, as used by
every list view with `per_page = settings.TOTAL_ON_PAGE`, `orphans = 0`,
`allow_empty_first_page = True`). -/

/-- `Paginator.num_pages` = `ceil(max(1, count) / per_page)`. -/
def numPages (count perPage : Nat) : Nat :=
  (max 1 count + perPage - 1) / perPage

/-- `Paginator.page(p).object_list` for a 1-based in-range page `p`:
the slice `object_list[(p-1)*per_page : p*per_page]`. -/
def pageSlice (l : List α) (perPage p : Nat) : List α :=
  (l.drop ((p - 1) * perPage)).take perPage

/-- `Paginator.get_page`: a missing (or non-integer) page number falls back to
page 1, an out-of-range number is clamped to the last page `num_pages`. -/
def getPage (page : Option Nat) (np : Nat) : Nat :=
  match page with
  | none => 1
  | some k => if k < 1 then np else if k > np then np else k

/-- The pages 1..num_pages of `l`, concatenated. -/
def concatPages (l : List α) (perPage : Nat) : List α :=
  ((List.range (numPages l.length perPage)).map (fun i => pageSlice l perPage (i + 1))).flatten

/-- Comparison used by `order_by("-price")`: descending by price.  SQL leaves the
relative order of equal-price rows unspecified; a stable sort is one faithful
refinement of it. -/
def adPriceGe (a b : Ad) : Prop := b.price ≤ a.price

instance : DecidableRel adPriceGe := fun a b => inferInstanceAs (Decidable (b.price ≤ a.price))

instance : IsTotal Ad adPriceGe := ⟨fun a b => Nat.le_total b.price a.price⟩

instance : IsTrans Ad adPriceGe := ⟨fun _ _ _ hab hbc => le_trans hbc hab⟩

/-- `order_by("-price")` (src/ads/views.py line 149): sort descending by price. -/
def sortAdsByPriceDesc (ads : List Ad) : List Ad :=
  List.insertionSort adPriceGe ads

/-- The Ad list a `GET /ad/` request is paginated over (src/ads/views.py
lines 148-149): all stored Ads, sorted descending by price. -/
def adListSorted (s : Store) : List Ad :=
  sortAdsByPriceDesc s.ads

/-- Python `str(location)`: `Location.__str__` returns `self.name`; when the
name is NULL, `str` raises TypeError because `__str__` returned a non-string. -/
def locationStr (l : Location) : Except String String :=
  match l.name with
  | some n => .ok n
  | none => .error "TypeError: __str__ returned non-string (type NoneType)"

/-- The Location rows of a user's `location_names` m2m set, in association order. -/
def userLocations (s : Store) (u : AdUser) : List Location :=
  u.location_ids.filterMap (fun lid => s.locations.find? (fun l => l.id == lid))

/-- The flat output record both Ad views build. -/
structure AdOut where
  id : Nat
  name : String
  price : Nat
  description : Option String
  image : Option String
  is_published : Bool
  author : String
  category : String
  location_names : List String
deriving DecidableEq, Repr

/-- The Ad projection of `AdListView.get` (src/ads/views.py lines 156-170);
`AdDetailView.get` (lines 187-202) builds the identical dict.  Evaluation
follows the Python dict literal order: `ad.author.username` is evaluated
before `category` and `location_names`, and raises AttributeError when
`author` is NULL. -/
def serializeAdItem (s : Store) (ad : Ad) : Except String AdOut := do
  let author ← match ad.author with
    | none => Except.error "AttributeError: NoneType object has no attribute username"
    | some uid =>
      match findUser s uid with
      | none => Except.error "AdUser matching query does not exist"
      | some u => Except.ok u
  let category ← match findCategory s ad.category with
    | none => Except.error "Category matching query does not exist"
    | some c => Except.ok c
  let locNames ← (userLocations s author).mapM locationStr
  Except.ok
    { id := ad.id, name := ad.name, price := ad.price, description := ad.description
      image := ad.image, is_published := ad.is_published, author := author.username
      category := category.name, location_names := locNames }

/-- Envelope of every list endpoint. -/
structure AdListResponse where
  items : List AdOut
  num_pages : Nat
  total : Nat
deriving DecidableEq, Repr

/-- `AdListView.get` (src/ads/views.py lines 147-178): sort all Ads descending
by price, paginate with `settings.TOTAL_ON_PAGE` (the settings module is not
under src/, so the page size is the `perPage` parameter), project each Ad of
the requested page. -/
def adListGet (s : Store) (perPage : Nat) (page : Option Nat) : Except String AdListResponse := do
  let sorted := adListSorted s
  let np := numPages sorted.length perPage
  let items ← (pageSlice sorted perPage (getPage page np)).mapM (serializeAdItem s)
  Except.ok { items := items, num_pages := np, total := sorted.length }

/-- `AdDetailView.get` (src/ads/views.py lines 187-202): fetch the Ad (404 when
absent), then the same projection as the list view. -/
def adDetailGet (s : Store) (aid : Nat) : Except String AdOut := do
  let ad ← match findAd s aid with
    | none => Except.error "404 Not Found"
    | some a => Except.ok a
  serializeAdItem s ad

/-! ### Query Builder (spec section 4.1) -/

/-- Bool test that `needle` is a prefix of `hay` (over char lists). -/
def startsWithChars : List Char → List Char → Bool
  | [], _ => true
  | _ :: _, [] => false
  | a :: as, b :: bs => a == b && startsWithChars as bs

/-- Bool substring test: Python `needle in hay` over char lists. -/
def hasSubChars (needle : List Char) : List Char → Bool
  | [] => needle.isEmpty
  | c :: t => startsWithChars needle (c :: t) || hasSubChars needle t

/-- ASCII lower-casing of one character.  SQLite (the backing store of this
app) applies `icontains` case-insensitively for ASCII only. -/
def lowerChar (c : Char) : Char :=
  if 65 ≤ c.toNat ∧ c.toNat ≤ 90 then Char.ofNat (c.toNat + 32) else c

/-- Case-insensitive substring containment (`icontains`). -/
def containsCI (hay needle : String) : Bool :=
  hasSubChars (needle.toList.map lowerChar) (hay.toList.map lowerChar)

/-- Modelled from the spec: the optional query parameters of the final filtered
`GET /ad/` variant (spec section 4.1/6); that view is part of the repository
but absent from src/ (the `AdListView` draft under src/ reads no filter
parameters).  `cat` is the repeatable set of category ids; absent parameters
are `none` (and `cat` absent is the empty list). -/
structure AdQueryParams where
  cat : List Nat
  text : Option String
  loc : Option String
  price_from : Option Nat
  price_to : Option Nat
deriving DecidableEq, Repr

/-- The request with no filter parameter present. -/
def noAdQueryParams : AdQueryParams :=
  { cat := [], text := none, loc := none, price_from := none, price_to := none }

/-- Modelled from the spec: the names of the Ad author locations, as the `loc`
filter joins them (`author__location_names__name__icontains`).  A NULL author
contributes no locations and a NULL location name never matches `icontains`. -/
def adAuthorLocationNames (s : Store) (ad : Ad) : List String :=
  match ad.author with
  | none => []
  | some uid =>
    match findUser s uid with
    | none => []
    | some u => (userLocations s u).filterMap (fun l => l.name)

/-- Modelled from the spec: the Query Builder of the final filtered `GET /ad/`
variant (absent from src/), as ORM-style chained `.filter(...)` calls — each
present parameter narrows the queryset in sequence, each absent parameter is
skipped. -/
def adQsFiltered (s : Store) (p : AdQueryParams) : List Ad :=
  let q0 := s.ads
  let q1 := if p.cat.isEmpty then q0 else q0.filter (fun ad => p.cat.contains ad.category)
  let q2 := match p.text with
    | none => q1
    | some t => q1.filter (fun ad => containsCI ad.name t)
  let q3 := match p.loc with
    | none => q2
    | some lq => q2.filter (fun ad => (adAuthorLocationNames s ad).any (fun nm => containsCI nm lq))
  let q4 := match p.price_from with
    | none => q3
    | some pf => q3.filter (fun ad => decide (pf ≤ ad.price))
  match p.price_to with
  | none => q4
  | some pt => q4.filter (fun ad => decide (ad.price ≤ pt))

/-- The single AND-composed predicate the claim describes: category id in the
set, name contains `text` case-insensitively, some author location name
contains `loc` case-insensitively, price at least `price_from`, price at most
`price_to` — each conjunct trivially true when its parameter is absent. -/
def adFilterPred (s : Store) (p : AdQueryParams) (ad : Ad) : Bool :=
  (p.cat.isEmpty || p.cat.contains ad.category) &&
  (match p.text with | none => true | some t => containsCI ad.name t) &&
  (match p.loc with
    | none => true
    | some lq => (adAuthorLocationNames s ad).any (fun nm => containsCI nm lq)) &&
  (match p.price_from with | none => true | some pf => decide (pf ≤ ad.price)) &&
  (match p.price_to with | none => true | some pt => decide (ad.price ≤ pt))

/-! ### Cascade deletes (src/ads/models.py: `Ad.author` and `Ad.category` are
ForeignKeys with `on_delete=models.CASCADE`; `CategoryDeleteView.delete` and
`AdUserDeleteView.delete` in src/ads/views.py call the model delete). -/

/-- `DELETE /cat/<id>/delete/`: removing a Category cascades to every Ad whose
`category` FK references it. -/
def deleteCategoryCascade (s : Store) (cid : Nat) : Store :=
  { s with
    categories := s.categories.filter (fun c => !(c.id == cid))
    ads := s.ads.filter (fun a => !(a.category == cid)) }

/-- `DELETE /user/<id>/delete/`: removing an AdUser cascades to every Ad whose
`author` FK references it (Ads with a NULL author are untouched). -/
def deleteUserCascade (s : Store) (uid : Nat) : Store :=
  { s with
    users := s.users.filter (fun u => !(u.id == uid))
    ads := s.ads.filter (fun a => !(a.author == some uid)) }

/-! ### Lexicographic string order (for `order_by("username")`; usernames are
ASCII slugs, so codepoint-wise comparison matches the database collation) -/

def charsLe : List Char → List Char → Bool
  | [], _ => true
  | _ :: _, [] => false
  | x :: xs, y :: ys =>
    decide (x.toNat < y.toNat) || (x.toNat == y.toNat && charsLe xs ys)

def usernameLe (u v : AdUser) : Prop :=
  charsLe u.username.toList v.username.toList = true

instance : DecidableRel usernameLe :=
  fun _ _ => inferInstanceAs (Decidable (_ = true))

instance : IsTotal AdUser usernameLe := by
  constructor
  intro u v
  unfold usernameLe
  generalize u.username.toList = xs
  generalize v.username.toList = ys
  induction xs generalizing ys with
  | nil => exact Or.inl rfl
  | cons x xt ih =>
    cases ys with
    | nil => exact Or.inr rfl
    | cons y yt =>
      rcases Nat.lt_trichotomy x.toNat y.toNat with h | h | h
      · exact Or.inl (by simp [charsLe, h])
      · rcases ih yt with h2 | h2
        · exact Or.inl (by simp [charsLe, h, h2])
        · exact Or.inr (by simp [charsLe, h, h2])
      · exact Or.inr (by simp [charsLe, h])

instance : IsTrans AdUser usernameLe := by
  constructor
  have H : ∀ xs ys zs, charsLe xs ys = true → charsLe ys zs = true → charsLe xs zs = true := by
    intro xs
    induction xs with
    | nil => intro ys zs _ _; rfl
    | cons x xt ih =>
      intro ys zs h1 h2
      cases ys with
      | nil => simp [charsLe] at h1
      | cons y yt =>
        cases zs with
        | nil => simp [charsLe] at h2
        | cons z zt =>
          simp only [charsLe, Bool.or_eq_true, Bool.and_eq_true, decide_eq_true_eq,
            beq_iff_eq] at h1 h2 ⊢
          rcases h1 with h1 | ⟨h1e, h1r⟩ <;> rcases h2 with h2 | ⟨h2e, h2r⟩
          · exact Or.inl (Nat.lt_trans h1 h2)
          · exact Or.inl (h2e ▸ h1)
          · exact Or.inl (h1e ▸ h2)
          · exact Or.inr ⟨h1e.trans h2e, ih yt zt h1r h2r⟩
  exact fun u v w h1 h2 => H _ _ _ h1 h2

/-! ### ORM write helpers -/

/-- Evaluate a Python expression that raises when the value is missing:
`get_object_or_404` (404), a required dict key (KeyError), a NOT NULL column
(IntegrityError), iterating `None` (TypeError), or an unbound local
(NameError).  The error string carries the exception. -/
def orRaise (o : Option α) (msg : String) : Except String α :=
  match o with
  | some a => Except.ok a
  | none => Except.error msg

/-- Fresh autoincrement primary keys. -/
def nextLocId (s : Store) : Nat := (s.locations.map (fun l => l.id)).foldr max 0 + 1

def nextUserId (s : Store) : Nat := (s.users.map (fun u => u.id)).foldr max 0 + 1

def nextAdId (s : Store) : Nat := (s.ads.map (fun a => a.id)).foldr max 0 + 1

/-- `Location.objects.get_or_create(name=location)`: reuse the first row with
that name, otherwise insert a fresh row (NULL lat/lng). -/
def locationGetOrCreate (s : Store) (nm : String) : Store × Location :=
  match s.locations.find? (fun l => l.name == some nm) with
  | some l => (s, l)
  | none =>
    let l : Location := { id := nextLocId s, name := some nm, lat := none, lng := none }
    ({ s with locations := s.locations ++ [l] }, l)

/-- The `for location in locations: location_obj, _ = Location.objects.get_or_create(...)`
loop shared by `AdUserCreateView.post` (views.py lines 482-483) and
`AdUserUpdateView.patch` (lines 536-537): every name is get-or-created, but
only the loop variable of the last iteration survives, because the `add` call
sits outside the loop body in the source.  Returns the updated store and that
last `location_obj` (`none` when the loop never ran). -/
def getOrCreateLoop (s : Store) (names : List String) : Store × Option Location :=
  names.foldl
    (fun acc nm =>
      let sl := locationGetOrCreate acc.1 nm
      (sl.1, some sl.2))
    (s, none)

/-- `user.location_names.add(loc)`: an m2m add writes the join table at once
(independently of any later `save()`); adding an already-linked row is a no-op. -/
def m2mAddLocation (s : Store) (uid lid : Nat) : Store :=
  { s with
    users := s.users.map (fun u =>
      if u.id == uid then
        if u.location_ids.contains lid then u
        else { u with location_ids := u.location_ids ++ [lid] }
      else u) }

/-- `[location_elem.name for location_elem in user.location_names.all()]`:
the (nullable) names of a user's associated locations. -/
def userLocationNameOpts (s : Store) (uid : Nat) : List (Option String) :=
  match findUser s uid with
  | none => []
  | some u => (userLocations s u).map (fun l => l.name)

/-! ### `PATCH /ad/<id>/update/` (`AdUpdateView.patch`, src/ads/views.py
lines 277-351) -/

/-- `Ad.objects.create(...)` with keyword arguments: a `None` value for a
NOT NULL column (`name`, `price`, `is_published`), or an absent `category`
keyword, makes the INSERT fail with IntegrityError and nothing is stored. -/
def adObjectsCreate (s : Store) (name : Option String) (price : Option Nat)
    (description : Option String) (is_published : Option Bool)
    (author : Option Nat) (category : Option Nat) : Except String (Store × Ad) := do
  let nm ← orRaise name "IntegrityError: NOT NULL constraint failed: ads_ad.name"
  let pr ← orRaise price "IntegrityError: NOT NULL constraint failed: ads_ad.price"
  let ip ← orRaise is_published "IntegrityError: NOT NULL constraint failed: ads_ad.is_published"
  let cid ← orRaise category "IntegrityError: NOT NULL constraint failed: ads_ad.category_id"
  let ad : Ad :=
    { id := nextAdId s, name := nm, price := pr, description := description
      image := none, is_published := ip, author := author, category := cid }
  Except.ok ({ s with ads := s.ads ++ [ad] }, ad)

/-- JSON body of `PATCH /ad/<id>/update/`; `none` marks an absent key.
(`category` is read only on the line after the create call, which is never
reached.) -/
structure AdPatchBody where
  name : Option String
  price : Option Nat
  description : Option String
  is_published : Option Bool
  author : Option String
  category : Option (List String)
  location_names : Option (List String)
deriving DecidableEq, Repr

/-- `AdUpdateView.patch`: fetches the target (`self.object`), resolves the
required `author` username, then calls `Ad.objects.create(...)` — creating a
NEW Ad from the body instead of mutating the target — without a `category`
keyword, so the INSERT always raises IntegrityError; were it to succeed, the
following lines (`ad_new.location_names.add`, `ad_new.category.add`) would
raise AttributeError, and the `full_clean`/`save` block at the end operates on
the untouched target, never on the supplied fields. -/
def adUpdatePatch (s : Store) (aid : Nat) (b : AdPatchBody) : Except String (Store × HResp) := do
  let _target ← orRaise (findAd s aid) "404 Not Found"
  let authorName ← orRaise b.author "KeyError: author"
  let author ← orRaise (findUserByUsername s authorName) "404 Not Found"
  let _created ← adObjectsCreate s b.name b.price b.description b.is_published
    (some author.id) none
  Except.error "AttributeError: Ad object has no attribute location_names"

/-! ### AdUser validation (`full_clean`, per the field declarations of
src/ads/models.py) -/

def roleChoices : List String := ["member", "moderator", "admin"]

/-- `AdUser.full_clean()`: the constraints declared in models.py —
CharField(max_length=20) on first/last name, SlugField(max_length=30) on
username and password, the role choices, PositiveSmallIntegerField range, and
the `unique=True` check on username.  Returns the field-to-messages map of
`ValidationError.message_dict` (empty = valid). -/
def validateAdUser (s : Store) (u : AdUser) : List (String × List String) :=
  (if u.first_name.length ≤ 20 then [] else
    [("first_name", ["Ensure this value has at most 20 characters."])]) ++
  (match u.last_name with
    | none => []
    | some ln =>
      if ln.length ≤ 20 then [] else
        [("last_name", ["Ensure this value has at most 20 characters."])]) ++
  (if u.username.length ≤ 30 then [] else
    [("username", ["Ensure this value has at most 30 characters."])]) ++
  (if s.users.any (fun v => v.username == u.username && !(v.id == u.id)) then
    [("username", ["Ad user with this Username already exists."])] else []) ++
  (if u.password.length ≤ 30 then [] else
    [("password", ["Ensure this value has at most 30 characters."])]) ++
  (if roleChoices.contains u.role then [] else
    [("role", ["Value is not a valid choice."])]) ++
  (if u.age ≤ 32767 then [] else
    [("age", ["Ensure this value is less than or equal to 32767."])])

/-- A `ValidationError.message_dict` as `JsonResponse` serializes it. -/
def jsonMsgs (m : List (String × List String)) : List (String × JVal) :=
  m.map (fun e => (e.1, JVal.strArr (e.2.map some)))

/-! ### `PATCH /user/<id>/update/` (`AdUserUpdateView.patch`, src/ads/views.py
lines 521-563) -/

/-- JSON body of `PATCH /user/<id>/update/`; `none` marks an absent key. -/
structure UserPatchBody where
  first_name : Option String
  last_name : Option String
  role : Option String
  age : Option Nat
  location_names : Option (List String)
  username : Option String
  password : Option String
deriving DecidableEq, Repr

/-- The success dict of `AdUserUpdateView.patch` (views.py lines 553-563);
it includes the plaintext `password` column. -/
def userUpdateRespBody (u : AdUser) (locNames : List (Option String)) : List (String × JVal) :=
  [("id", .num u.id), ("first_name", .str u.first_name), ("last_name", optStr u.last_name),
   ("username", .str u.username), ("password", .str u.password), ("role", .str u.role),
   ("age", .num u.age), ("location_names", .strArr locNames)]

/-- The presence-checked in-memory mutations of `AdUserUpdateView.patch`
(views.py lines 526-533): a field changes on the working copy only when its
key is present in the body. -/
def applyUserPatchFields (b : UserPatchBody) (target : AdUser) : AdUser :=
  let w1 := match b.first_name with | none => target | some v => { target with first_name := v }
  let w2 := match b.last_name with | none => w1 | some v => { w1 with last_name := some v }
  let w3 := match b.role with | none => w2 | some v => { w2 with role := v }
  match b.age with | none => w3 | some v => { w3 with age := v }

/-- `AdUserUpdateView.patch`: presence-checked in-memory mutations of
first_name/last_name/role/age; then the location get-or-create loop and the
(last-location-only) m2m `add` — both persisted immediately, before any
validation; then `self.object.username = get_object_or_404(...)` (an AdUser
object, later coerced by `CharField.clean` to `str(user)`, i.e. that user's
username) and, since an object is always truthy, the required `password` key
is assigned; finally `full_clean()` — on ValidationError the view answers 422
with the message dict, but the location writes are already committed; on
success the scalar columns are saved. -/
def adUserUpdatePatch (s : Store) (uid : Nat) (b : UserPatchBody) :
    Except String (Store × HResp) :=
  match findUser s uid with
  | none => Except.error "404 Not Found"
  | some target =>
  let w4 := applyUserPatchFields b target
  match b.location_names with
  | none => Except.error "TypeError: NoneType object is not iterable"
  | some names =>
  let sl := getOrCreateLoop s names
  match sl.2 with
  | none => Except.error "NameError: name location_obj is not defined"
  | some lastLoc =>
  let s1 := m2mAddLocation sl.1 uid lastLoc.id
  let locNames := userLocationNameOpts s1 uid
  match b.username with
  | none => Except.error "KeyError: username"
  | some unKey =>
  match findUserByUsername s1 unKey with
  | none => Except.error "404 Not Found"
  | some unUser =>
  let w5 := { w4 with username := unUser.username }
  match b.password with
  | none => Except.error "KeyError: password"
  | some pw =>
  let w6 := { w5 with password := pw }
  let msgs := validateAdUser s1 w6
  if msgs.isEmpty then
    let s2 := { s1 with
      users := s1.users.map (fun v =>
        if v.id == uid then { w6 with location_ids := v.location_ids } else v) }
    Except.ok (s2, { status := 200, body := userUpdateRespBody w6 locNames })
  else
    Except.ok (s1, { status := 422, body := jsonMsgs msgs })

/-! ### `POST /user/create/` (`AdUserCreateView.post`, src/ads/views.py
lines 468-510) -/

/-- JSON body of `POST /user/create/`; `none` marks an absent key. -/
structure UserCreateBody where
  first_name : Option String
  last_name : Option String
  username : Option String
  password : Option String
  role : Option String
  age : Option Nat
  location_names : Option (List String)
deriving DecidableEq, Repr

/-- `AdUser.objects.create(...)`: a `None` for a NOT NULL column raises
IntegrityError (only `last_name` is nullable), as does a duplicate username
(`unique=True`); `objects.create` runs no validators. -/
def adUserObjectsCreate (s : Store) (fn ln un pw rl : Option String) (ag : Option Nat) :
    Except String (Store × AdUser) :=
  match fn with
  | none => Except.error "IntegrityError: NOT NULL constraint failed: ads_aduser.first_name"
  | some fnv =>
  match un with
  | none => Except.error "IntegrityError: NOT NULL constraint failed: ads_aduser.username"
  | some unv =>
  match pw with
  | none => Except.error "IntegrityError: NOT NULL constraint failed: ads_aduser.password"
  | some pwv =>
  match rl with
  | none => Except.error "IntegrityError: NOT NULL constraint failed: ads_aduser.role"
  | some rlv =>
  match ag with
  | none => Except.error "IntegrityError: NOT NULL constraint failed: ads_aduser.age"
  | some agv =>
  if s.users.any (fun v => v.username == unv) then
    Except.error "IntegrityError: UNIQUE constraint failed: ads_aduser.username"
  else
    let u : AdUser :=
      { id := nextUserId s, first_name := fnv, last_name := ln, username := unv
        password := pwv, role := rlv, age := agv, location_ids := [] }
    Except.ok ({ s with users := s.users ++ [u] }, u)

/-- The success dict of `AdUserCreateView.post` (views.py lines 500-510);
it includes the plaintext `password` column. -/
def userCreateRespBody (u : AdUser) (locNames : List (Option String)) : List (String × JVal) :=
  [("id", .num u.id), ("first_name", .str u.first_name), ("last_name", optStr u.last_name),
   ("username", .str u.username), ("password", .str u.password), ("role", .str u.role),
   ("age", .num u.age), ("location_names", .strArr locNames)]

/-- `AdUserCreateView.post`: create the row, run the location get-or-create
loop, then link only the last `location_obj` (the `add` is outside the loop),
and answer with the new user dict plus the names of the locations actually
linked. -/
def adUserCreatePost (s : Store) (b : UserCreateBody) : Except String (Store × HResp) :=
  match adUserObjectsCreate s b.first_name b.last_name b.username b.password b.role b.age with
  | Except.error e => Except.error e
  | Except.ok su =>
  match b.location_names with
  | none => Except.error "TypeError: NoneType object is not iterable"
  | some names =>
  let sl := getOrCreateLoop su.1 names
  match sl.2 with
  | none => Except.error "NameError: name location_obj is not defined"
  | some lastLoc =>
  let s1 := m2mAddLocation sl.1 su.2.id lastLoc.id
  Except.ok (s1, { status := 200, body := userCreateRespBody su.2 (userLocationNameOpts s1 su.2.id) })

/-! ### DRF serializers (src/ads/serializers.py) -/

/-- The AdUser model fields a DRF ModelSerializer enumerates. -/
def adUserModelFields : List String :=
  ["id", "first_name", "last_name", "username", "password", "role", "age", "location_names"]

/-- `Meta.exclude` semantics: every model field except the excluded ones. -/
def serializerFields (exclude : List String) : List String :=
  adUserModelFields.filter (fun f => !(exclude.contains f))

/-- `AdUserListSerializer` (serializers.py lines 12-23): `exclude = ['password']`. -/
def adUserListSerializerFields : List String := serializerFields ["password"]

/-- `AdUserDetailSerializer` (serializers.py lines 26-36): `exclude = ['password']`. -/
def adUserDetailSerializerFields : List String := serializerFields ["password"]

/-! ### `GET /user/` listing, spec section 4.4.  Modelled from the spec: the
final user list view (DRF list endpoint with the annotated `total_ads`
consumed by `AdUserListSerializer`) is part of the repository but absent from
src/; the `AdUserListView` draft under src/ raises FieldError on its first
queryset line. -/

/-- One bucket update of the aggregation: increment the count for `uid`. -/
def bump : List (Nat × Nat) → Nat → List (Nat × Nat)
  | [], uid => [(uid, 1)]
  | e :: rest, uid => if e.1 == uid then (e.1, e.2 + 1) :: rest else e :: bump rest uid

/-- Look a user id up in the aggregated counts (0 when absent). -/
def aggLookup : List (Nat × Nat) → Nat → Nat
  | [], _ => 0
  | e :: rest, uid => if e.1 == uid then e.2 else aggLookup rest uid

/-- One Ad row of the aggregate pass: published Ads with a non-null author
count towards that author. -/
def aggStep (m : List (Nat × Nat)) (a : Ad) : List (Nat × Nat) :=
  match a.author with
  | some uid => if a.is_published then bump m uid else m
  | none => m

/-- Modelled from the spec: the `total_ads` annotation — the published-Ad count
per author, computed in one aggregate pass over the Ads alongside the page
query (not re-queried per row). -/
def totalAdsAgg (s : Store) : List (Nat × Nat) :=
  s.ads.foldl aggStep []

/-- The per-row specification of `total_ads`: the count of this user's Ads
with `is_published = true`. -/
def totalAdsCount (s : Store) (uid : Nat) : Nat :=
  (s.ads.filter (fun a => a.author == some uid && a.is_published)).length

/-- Modelled from the spec: `order_by("username")`, ascending. -/
def userListSorted (s : Store) : List AdUser :=
  List.insertionSort usernameLe s.users

/-- The projected user record of the spec section 4.4 listing. -/
structure UserOut where
  id : Nat
  first_name : String
  last_name : Option String
  username : String
  role : String
  age : Nat
  location_names : List (Option String)
  total_ads : Nat
deriving DecidableEq, Repr

def projectUser (s : Store) (agg : List (Nat × Nat)) (u : AdUser) : UserOut :=
  { id := u.id, first_name := u.first_name, last_name := u.last_name
    username := u.username, role := u.role, age := u.age
    location_names := userLocationNameOpts s u.id, total_ads := aggLookup agg u.id }

structure UserListResponse where
  items : List UserOut
  num_pages : Nat
  total : Nat
deriving DecidableEq, Repr

/-- Modelled from the spec: the final `GET /user/` listing — sort by username
ascending, paginate, project with the aggregated `total_ads`. -/
def userListGet (s : Store) (perPage : Nat) (page : Option Nat) : UserListResponse :=
  let sorted := userListSorted s
  let np := numPages sorted.length perPage
  let agg := totalAdsAgg s
  { items := (pageSlice sorted perPage (getPage page np)).map (projectUser s agg)
    num_pages := np, total := sorted.length }

/-! ### Demo data for witnesses -/

def emptyStore : Store := { categories := [], locations := [], users := [], ads := [] }

def demoCat : Category := { id := 1, name := "electronics", is_active := true }

/-- An Ad whose `author` is NULL (allowed: the FK is `null=True`). -/
def orphanAd : Ad :=
  { id := 7, name := "old tv", price := 50, description := none, image := none
    is_published := true, author := none, category := 1 }

def storeWithOrphanAd : Store :=
  { categories := [demoCat], locations := [], users := [], ads := [orphanAd] }

def demoUser1 : AdUser :=
  { id := 1, first_name := "Ann", last_name := none, username := "ann", password := "pw"
    role := "member", age := 30, location_ids := [] }

def demoUser2 : AdUser :=
  { id := 2, first_name := "Bob", last_name := none, username := "bob", password := "pw"
    role := "member", age := 40, location_ids := [] }

def demoAd1 : Ad :=
  { id := 1, name := "tv", price := 50, description := none, image := none
    is_published := true, author := some 1, category := 1 }

def demoAd2 : Ad :=
  { id := 2, name := "radio", price := 20, description := none, image := none
    is_published := false, author := some 1, category := 1 }

def demoAdKept : Ad :=
  { id := 3, name := "sofa", price := 70, description := none, image := none
    is_published := true, author := some 2, category := 2 }

/-- Two Ads (category 1, author 1) that cascade away, one (category 2, author 2)
that survives. -/
def cascadeStore : Store :=
  { categories := [demoCat, { id := 2, name := "furniture", is_active := true }]
    locations := []
    users := [demoUser1, demoUser2]
    ads := [demoAd1, demoAd2, demoAdKept] }

/-- A well-formed `PATCH /ad/1/update/` body: existing author, every mutable
field supplied. -/
def c3Body : AdPatchBody :=
  { name := some "newname", price := some 999, description := some "better"
    is_published := some true, author := some "bob", category := some ["electronics"]
    location_names := some ["Moscow"] }

def c7Store : Store := { categories := [], locations := [], users := [demoUser1], ads := [] }

/-- An update that must fail validation: `first_name` is 21 characters, one over
the CharField(max_length=20) bound; it also creates and links a new location. -/
def c7Body : UserPatchBody :=
  { first_name := some "AAAAAAAAAAAAAAAAAAAAA", last_name := none, role := none, age := none
    location_names := some ["NewCity"], username := some "ann", password := some "pw2" }

/-- The store after the rejected update: the location row and the join-table row
are persisted although the response was 422. -/
def c7After : Store :=
  { categories := []
    locations := [{ id := 1, name := some "NewCity", lat := none, lng := none }]
    users := [{ demoUser1 with location_ids := [1] }]
    ads := [] }

def c9Body : UserCreateBody :=
  { first_name := some "Ann", last_name := none, username := some "ann", password := some "pw"
    role := some "member", age := some 30, location_names := some ["Moscow", "Tula"] }

/-- A second create naming only the already-existing "Moscow". -/
def c9Body2 : UserCreateBody :=
  { first_name := some "Bob", last_name := none, username := some "bob", password := some "pw"
    role := some "member", age := some 40, location_names := some ["Moscow"] }

def c9NewUser : AdUser :=
  { id := 1, first_name := "Ann", last_name := none, username := "ann", password := "pw"
    role := "member", age := 30, location_ids := [] }

def moscowLoc : Location := { id := 1, name := some "Moscow", lat := none, lng := none }

def tulaLoc : Location := { id := 2, name := some "Tula", lat := none, lng := none }

/-- The store after `POST /user/create/` with both location names: both rows
exist, but the new user is linked only to the last one. -/
def c9After : Store :=
  { categories := [], locations := [moscowLoc, tulaLoc]
    users := [{ c9NewUser with location_ids := [2] }], ads := [] }

/-- A successful `PATCH /user/1/update/` body (valid fields, own username). -/
def c10Body : UserPatchBody :=
  { first_name := some "An", last_name := none, role := none, age := none
    location_names := some ["Tula"], username := some "ann", password := some "newpw" }

/-- Store and 200 response of the successful update of `demoUser1`. -/
def c10UpdOut : Store × HResp :=
  ({ categories := []
     locations := [{ id := 1, name := some "Tula", lat := none, lng := none }]
     users := [{ id := 1, first_name := "An", last_name := none, username := "ann"
                 password := "newpw", role := "member", age := 30, location_ids := [1] }]
     ads := [] },
   { status := 200
     body := [("id", .num 1), ("first_name", .str "An"), ("last_name", .null),
              ("username", .str "ann"), ("password", .str "newpw"), ("role", .str "member"),
              ("age", .num 30), ("location_names", .strArr [some "Tula"])] })

/-- Store and 200 response of the successful create with `c9Body`. -/
def c10CreateOut : Store × HResp :=
  (c9After,
   { status := 200
     body := [("id", .num 1), ("first_name", .str "Ann"), ("last_name", .null),
              ("username", .str "ann"), ("password", .str "pw"), ("role", .str "member"),
              ("age", .num 30), ("location_names", .strArr [some "Tula"])] })

/-- Users deliberately stored out of username order, with published and
unpublished Ads. -/
def c8Store : Store :=
  { categories := [demoCat], locations := [], users := [demoUser2, demoUser1]
    ads := [demoAd1, demoAd2, demoAdKept] }

/-- The projected record of user "ann" in the `GET /user/` listing of
`c8Store`: one published Ad (demoAd1; demoAd2 is unpublished). -/
def c8ItemAnn : UserOut :=
  { id := 1, first_name := "Ann", last_name := none, username := "ann", role := "member"
    age := 30, location_names := [], total_ads := 1 }

end HW30

namespace HW30

/-! ### Claims -/

/-- C2.  The spec claims an Ad with NULL `author` projects `author: null` and
`location_names: []` without error.  The code (src/ads/views.py lines 165, 197)
evaluates `ad.author.username` unconditionally, so projecting an authorless Ad
raises AttributeError instead: the request dies with HTTP 500 and no record is
output.  The claim is right about the intent (the model allows a NULL author)
and the code is a slip. -/
theorem claim_C2_author_null_raises (s : Store) (ad : Ad) (h : ad.author = none) :
    serializeAdItem s ad =
      Except.error "AttributeError: NoneType object has no attribute username" := by
  simp only [serializeAdItem, h]
  rfl

/-- Witness for C2 at a concrete authorless Ad. -/
theorem claim_C2_witness :
    orphanAd.author = none ∧
      serializeAdItem storeWithOrphanAd orphanAd =
        Except.error "AttributeError: NoneType object has no attribute username" :=
  ⟨rfl, claim_C2_author_null_raises storeWithOrphanAd orphanAd rfl⟩

/-! ### Paginator lemmas -/

theorem flatten_pageSlices (l : List α) (P : Nat) (k : Nat) :
    ((List.range k).map (fun i => pageSlice l P (i + 1))).flatten = l.take (k * P) := by
  induction k with
  | zero => simp
  | succ k ih =>
    rw [List.range_succ, List.map_append, List.flatten_append]
    simp only [List.map_cons, List.map_nil, List.flatten_cons, List.flatten_nil, List.append_nil]
    rw [ih]
    show l.take (k * P) ++ (l.drop ((k + 1 - 1) * P)).take P = l.take ((k + 1) * P)
    rw [Nat.add_sub_cancel, Nat.succ_mul]
    conv_rhs => rw [List.take_add]

theorem le_numPages_mul (n P : Nat) (hP : 0 < P) : n ≤ numPages n P * P := by
  unfold numPages
  set m := max 1 n with hm
  have hmn : n ≤ m := Nat.le_max_right 1 n
  have hm1 : 1 ≤ m := Nat.le_max_left 1 n
  by_contra hlt
  push_neg at hlt
  have hq : (m + P - 1) / P * P < m := by omega
  have h2 : ((m + P - 1) / P + 1) * P ≤ m + P - 1 := by
    have e : ((m + P - 1) / P + 1) * P = (m + P - 1) / P * P + P := by ring
    omega
  have h3 : (m + P - 1) / P + 1 ≤ (m + P - 1) / P :=
    (Nat.le_div_iff_mul_le hP).2 h2
  omega

theorem concatPages_self (l : List α) (P : Nat) (hP : 0 < P) : concatPages l P = l := by
  unfold concatPages
  rw [flatten_pageSlices]
  exact List.take_of_length_le (le_numPages_mul l.length P hP)

theorem pairwise_pageSlice {R : α → α → Prop} {l : List α} (P p : Nat)
    (h : l.Pairwise R) : (pageSlice l P p).Pairwise R :=
  h.sublist ((List.take_sublist _ _).trans (List.drop_sublist _ _))

theorem sum_pageSlice_lengths (l : List α) (P : Nat) (hP : 0 < P) :
    ((List.range (numPages l.length P)).map (fun i => (pageSlice l P (i + 1)).length)).sum
      = l.length := by
  have h1 : ((List.range (numPages l.length P)).map (fun i => (pageSlice l P (i + 1)).length)).sum
      = ((List.range (numPages l.length P)).map (fun i => pageSlice l P (i + 1))).flatten.length := by
    rw [List.length_flatten, List.map_map]
    rfl
  have h2 := concatPages_self l P hP
  unfold concatPages at h2
  rw [h1, h2]

/-- C4, amended.  For the list a `GET /ad/` request paginates over,
concatenating pages 1..num_pages yields exactly the full sorted list (hence no
duplicates and no omissions), the reported total (`paginator.count`, i.e. the
length of that list) equals the sum of all page lengths, and
`num_pages = ceil(total/page_size)` whenever the total is positive — but a
Django paginator reports `num_pages = 1`, not `0`, for an empty result set. -/
theorem claim_C4_pagination_completeness (s : Store) (P : Nat) (hP : 0 < P) :
    concatPages (adListSorted s) P = adListSorted s ∧
      ((List.range (numPages (adListSorted s).length P)).map
          (fun i => (pageSlice (adListSorted s) P (i + 1)).length)).sum
        = (adListSorted s).length ∧
      (0 < (adListSorted s).length →
        numPages (adListSorted s).length P = ((adListSorted s).length + P - 1) / P) ∧
      ((adListSorted s).length = 0 → numPages (adListSorted s).length P = 1) := by
  refine ⟨concatPages_self _ P hP, sum_pageSlice_lengths _ P hP, ?_, ?_⟩
  · intro h
    unfold numPages
    rw [Nat.max_eq_right h]
  · intro h
    unfold numPages
    rw [h]
    simp [Nat.div_self hP]

/-- Witness for C4 (amended) at page size 2. -/
theorem claim_C4_witness :
    0 < 2 ∧
      (concatPages (adListSorted storeWithOrphanAd) 2 = adListSorted storeWithOrphanAd ∧
        ((List.range (numPages (adListSorted storeWithOrphanAd).length 2)).map
            (fun i => (pageSlice (adListSorted storeWithOrphanAd) 2 (i + 1)).length)).sum
          = (adListSorted storeWithOrphanAd).length ∧
        (0 < (adListSorted storeWithOrphanAd).length →
          numPages (adListSorted storeWithOrphanAd).length 2
            = ((adListSorted storeWithOrphanAd).length + 2 - 1) / 2) ∧
        ((adListSorted storeWithOrphanAd).length = 0 →
          numPages (adListSorted storeWithOrphanAd).length 2 = 1)) :=
  ⟨by decide, claim_C4_pagination_completeness storeWithOrphanAd 2 (by decide)⟩

/-- C4, counterexample to the claim as stated: on an empty store the `GET /ad/`
response has `total = 0` and `num_pages = 1`, while `ceil(total/page_size)`
(page size 4 here) is `0`. -/
theorem claim_C4_counterexample :
    adListGet emptyStore 4 none = Except.ok { items := [], num_pages := 1, total := 0 } ∧
      ((0 : Nat) + 4 - 1) / 4 = 0 ∧ (1 : Nat) ≠ 0 := by
  refine ⟨?_, by decide, by decide⟩
  rfl

/-- C1.  The independently-optional `GET /ad/` parameters compose by logical
AND: the chained ORM filters produce exactly the Ads satisfying the single
conjunctive predicate of the claim, and with no parameter present the result
is all stored Ads.  (Spec-modelled: the final filtered list view is not under
src/.) -/
theorem claim_C1_filter_composition (s : Store) (p : AdQueryParams) :
    adQsFiltered s p = s.ads.filter (adFilterPred s p) ∧
      adQsFiltered s noAdQueryParams = s.ads := by
  constructor
  · rcases p with ⟨cat, text, loc, pf, pt⟩
    unfold adQsFiltered adFilterPred
    cases cat <;> cases text <;> cases loc <;> cases pf <;> cases pt <;>
      simp [List.filter_filter, Bool.and_assoc, Bool.and_comm, Bool.and_left_comm]
  · rfl

/-! ### Cascade-delete lemmas -/

theorem length_filter_not_add_countP (l : List α) (p : α → Bool) :
    (l.filter (fun a => !p a)).length + l.countP p = l.length := by
  induction l with
  | nil => simp
  | cons a t ih => by_cases h : p a <;> simp [List.filter_cons, List.countP_cons, h] <;> omega

theorem countP_filter_not (l : List α) (p : α → Bool) :
    (l.filter (fun a => !p a)).countP p = 0 := by
  induction l with
  | nil => simp
  | cons a t ih => by_cases h : p a <;> simp [List.filter_cons, List.countP_cons, h, ih]

/-- C5.  Deleting a Category removes exactly the Ads referencing it: none remain,
the Ad count drops by the number N of referencing Ads, and every other Ad
survives; deleting an AdUser does the same for the M Ads it authored. -/
theorem claim_C5_cascade_delete (s : Store) (cid uid : Nat) :
    ((deleteCategoryCascade s cid).ads.countP (fun a => a.category == cid) = 0 ∧
      (deleteCategoryCascade s cid).ads.length + s.ads.countP (fun a => a.category == cid)
        = s.ads.length ∧
      ∀ a, a ∈ s.ads → a.category ≠ cid → a ∈ (deleteCategoryCascade s cid).ads) ∧
    ((deleteUserCascade s uid).ads.countP (fun a => a.author == some uid) = 0 ∧
      (deleteUserCascade s uid).ads.length + s.ads.countP (fun a => a.author == some uid)
        = s.ads.length ∧
      ∀ a, a ∈ s.ads → a.author ≠ some uid → a ∈ (deleteUserCascade s uid).ads) := by
  refine ⟨⟨countP_filter_not _ _, length_filter_not_add_countP _ _, ?_⟩,
          ⟨countP_filter_not _ _, length_filter_not_add_countP _ _, ?_⟩⟩
  · intro a ha hne
    simp only [deleteCategoryCascade, List.mem_filter]
    exact ⟨ha, by simp [hne]⟩
  · intro a ha hne
    simp only [deleteUserCascade, List.mem_filter]
    exact ⟨ha, by simp [hne]⟩

/-- Witness for C5 on `cascadeStore`: deleting category 1 removes its two Ads,
deleting user 1 removes the two Ads they authored; `demoAdKept` survives both. -/
theorem claim_C5_witness :
    ((deleteCategoryCascade cascadeStore 1).ads.countP (fun a => a.category == 1) = 0 ∧
      (deleteCategoryCascade cascadeStore 1).ads.length
          + cascadeStore.ads.countP (fun a => a.category == 1)
        = cascadeStore.ads.length) ∧
    (demoAdKept ∈ cascadeStore.ads ∧ demoAdKept.category ≠ 1 ∧
      demoAdKept ∈ (deleteCategoryCascade cascadeStore 1).ads) ∧
    (demoAdKept.author ≠ some 1 ∧ demoAdKept ∈ (deleteUserCascade cascadeStore 1).ads) :=
  ⟨⟨(claim_C5_cascade_delete cascadeStore 1 1).1.1,
      (claim_C5_cascade_delete cascadeStore 1 1).1.2.1⟩,
    ⟨by decide, by decide,
      (claim_C5_cascade_delete cascadeStore 1 1).1.2.2 demoAdKept (by decide) (by decide)⟩,
    ⟨by decide,
      (claim_C5_cascade_delete cascadeStore 1 1).2.2.2 demoAdKept (by decide) (by decide)⟩⟩

/-- C6.  A `GET /ad/` request sorts all Ads descending by price before the page
slice is taken: the list handed to the paginator is pairwise non-increasing in
price and is a permutation of the stored Ads, and consequently so is every page
slice served. -/
theorem claim_C6_sorted_by_price_desc (s : Store) (P p : Nat) :
    List.Pairwise (fun a b : Ad => b.price ≤ a.price) (adListSorted s) ∧
      (adListSorted s).Perm s.ads ∧
      List.Pairwise (fun a b : Ad => b.price ≤ a.price) (pageSlice (adListSorted s) P p) := by
  have hs : List.Pairwise adPriceGe (adListSorted s) :=
    List.sorted_insertionSort adPriceGe s.ads
  exact ⟨hs, List.perm_insertionSort adPriceGe s.ads, pairwise_pageSlice P p hs⟩

/-- C3.  The spec claims `PATCH /ad/<id>/update/` mutates the existing Ad and
preserves omitted fields.  The code (src/ads/views.py lines 277-351) instead
calls `Ad.objects.create(...)` on the body — and passes no `category` keyword,
so for every request that gets past the target and author lookups the INSERT
violates the NOT NULL constraint on `ads_ad.category_id` (or on another column
whose key is omitted) and the request dies with an unhandled IntegrityError:
the handler never returns a response and never mutates the target.  The claim
matches the view docstring and the commented-out presence-checked update in
the same function; the shipped code is a slip. -/
theorem claim_C3_ad_patch_never_updates (s : Store) (aid : Nat) (b : AdPatchBody)
    (ad : Ad) (an : String) (u : AdUser) (h1 : findAd s aid = some ad)
    (h2 : b.author = some an) (h3 : findUserByUsername s an = some u) :
    ∃ e, adUpdatePatch s aid b = Except.error e := by
  unfold adUpdatePatch
  rw [h1, h2]
  simp only [orRaise, bind, Except.bind]
  rw [h3]
  cases hn : b.name <;> cases hp : b.price <;> cases hip : b.is_published <;>
    exact ⟨_, rfl⟩

/-- Witness for C3: a fully-populated body against an existing Ad and author
still raises. -/
theorem claim_C3_witness :
    findAd cascadeStore 1 = some demoAd1 ∧ c3Body.author = some "bob" ∧
      findUserByUsername cascadeStore "bob" = some demoUser2 ∧
      (∃ e, adUpdatePatch cascadeStore 1 c3Body = Except.error e) :=
  ⟨by decide, by decide, by decide,
    claim_C3_ad_patch_never_updates cascadeStore 1 c3Body demoAd1 "bob" demoUser2
      (by decide) (by decide) (by decide)⟩

/-- C7.  The spec claims a validation-rejected update answers 422 with a
field-to-messages map and has no effect on stored state.  The 422 envelope is
right, but `AdUserUpdateView.patch` (src/ads/views.py lines 535-538) runs the
location `get_or_create` loop and the m2m `add` BEFORE `full_clean()`: a
rejected user update persists the new Location row and the join-table row.
Here the over-long `first_name` is rejected (422, message keyed by the failing
field, the stored first_name stays "Ann"), yet the store differs from the
initial one by the new location and its association. -/
theorem claim_C7_rejected_update_not_effect_free :
    adUserUpdatePatch c7Store 1 c7Body =
        Except.ok (c7After,
          { status := 422
            body := [("first_name",
              JVal.strArr [some "Ensure this value has at most 20 characters."])] }) ∧
      (findUser c7After 1).map (fun u => u.first_name) = some "Ann" ∧
      c7After.locations.length = c7Store.locations.length + 1 ∧
      (findUser c7After 1).map (fun u => u.location_ids) = some [1] ∧
      c7After ≠ c7Store := by
  refine ⟨by decide, by decide, by decide, by decide, by decide⟩

/-- C9.  The spec claims every name in `location_names` is get-or-created and
every one ends up associated with the new user.  Get-or-create is right (both
rows are created, a repeat call reuses "Moscow" without duplicating it), but
the `add` sits outside the `for` loop (src/ads/views.py line 485), so only the
LAST location of the list is associated: with `["Moscow", "Tula"]` the new
user is linked to Tula (location id 2) alone, and the response lists only
"Tula".  The reference pattern in serializers.py (commented `create`) and the
spec example both put the add inside the loop; the shipped indentation is a
slip. -/
theorem claim_C9_only_last_location_associated :
    adUserCreatePost emptyStore c9Body =
        Except.ok (c9After,
          { status := 200, body := userCreateRespBody c9NewUser [some "Tula"] }) ∧
      c9After.locations.map (fun l => l.name) = [some "Moscow", some "Tula"] ∧
      (findUser c9After 1).map (fun u => u.location_ids) = some [2] ∧
      ((findUser c9After 1).map (fun u => u.location_ids) = some [1, 2] → False) ∧
      (adUserCreatePost c9After c9Body2).toOption.map
          (fun o => o.1.locations.map (fun l => l.name))
        = some [some "Moscow", some "Tula"] ∧
      (adUserCreatePost c9After c9Body2).toOption.map
          (fun o => (findUser o.1 2).map (fun u => u.location_ids))
        = some (some [1]) := by
  refine ⟨by decide, by decide, by decide, by decide, by decide, by decide⟩

/-! ### Aggregation lemmas for the user listing -/

theorem aggLookup_bump (m : List (Nat × Nat)) (v uid : Nat) :
    aggLookup (bump m v) uid = aggLookup m uid + (if v = uid then 1 else 0) := by
  induction m with
  | nil => by_cases h : v = uid <;> simp [bump, aggLookup, h]
  | cons e rest ih =>
    rcases e with ⟨k, c⟩
    by_cases h1 : k = v
    · subst h1
      by_cases h2 : k = uid
      · subst h2; simp [bump, aggLookup]
      · simp [bump, aggLookup, h2]
    · by_cases h2 : k = uid
      · subst h2
        have h3 : ¬v = k := fun hh => h1 hh.symm
        simp [bump, aggLookup, h1, h3]
      · simp [bump, aggLookup, h1, h2, ih]

theorem aggLookup_foldl (l : List Ad) (m : List (Nat × Nat)) (uid : Nat) :
    aggLookup (l.foldl aggStep m) uid
      = aggLookup m uid + (l.filter (fun a => a.author == some uid && a.is_published)).length := by
  induction l generalizing m with
  | nil => simp
  | cons a t ih =>
    rw [List.foldl_cons, ih]
    cases ha : a.author with
    | none => simp [aggStep, List.filter_cons, ha]
    | some v =>
      by_cases hp : a.is_published
      · rw [show aggStep m a = bump m v by simp [aggStep, ha, hp], aggLookup_bump]
        by_cases hv : v = uid <;> (simp [List.filter_cons, ha, hp, hv]; try omega)
      · simp only [Bool.not_eq_true] at hp
        rw [show aggStep m a = m by simp [aggStep, ha, hp]]
        simp [List.filter_cons, ha, hp]

/-- The one-pass aggregate agrees with the per-row count of published Ads. -/
theorem aggLookup_totalAdsAgg (s : Store) (uid : Nat) :
    aggLookup (totalAdsAgg s) uid = totalAdsCount s uid := by
  unfold totalAdsAgg totalAdsCount
  rw [aggLookup_foldl]
  simp [aggLookup]

/-- C8.  In the `GET /user/` listing the served items are sorted by username
ascending (lexicographically), and every projected record carries
`total_ads` equal to the count of that user's Ads with `is_published = true`
over the same store snapshot — the single aggregate pass (`totalAdsAgg`,
modelling the annotation computed alongside the page query) provably agrees
with the per-row specification `totalAdsCount`.  (Spec-modelled: the final
annotated user list view is not under src/; only its serializer is.) -/
theorem claim_C8_user_list_sorted_and_totals (s : Store) (perPage : Nat) (page : Option Nat) :
    List.Pairwise (fun a b : UserOut => charsLe a.username.toList b.username.toList = true)
      (userListGet s perPage page).items ∧
    ∀ it ∈ (userListGet s perPage page).items, it.total_ads = totalAdsCount s it.id := by
  constructor
  · have hs : (userListSorted s).Pairwise usernameLe :=
      List.sorted_insertionSort usernameLe s.users
    have hp := pairwise_pageSlice (l := userListSorted s)
      perPage (getPage page (numPages (userListSorted s).length perPage)) hs
    unfold userListGet
    rw [List.pairwise_map]
    exact hp
  · intro it hit
    unfold userListGet at hit
    simp only [List.mem_map] at hit
    obtain ⟨u, _, rfl⟩ := hit
    exact aggLookup_totalAdsAgg s u.id

/-! ### C10 helper: inverting the user create -/

theorem adUserObjectsCreate_password (s : Store) (fn ln un pw rl : Option String)
    (ag : Option Nat) (su : Store × AdUser)
    (h : adUserObjectsCreate s fn ln un pw rl ag = Except.ok su) :
    pw = some su.2.password := by
  unfold adUserObjectsCreate at h
  repeat' split at h
  all_goals cases h
  simp_all

/-- C10.  Every successful `POST /user/create/` and `PATCH /user/<id>/update/`
response body carries the plaintext `password` column of the written row
(which for the update is exactly the password supplied in the body), while
both DRF user serializers exclude `password` from their output fields. -/
theorem claim_C10_password_in_write_responses :
    (∀ s b out, adUserCreatePost s b = Except.ok out →
      out.2.body.lookup "password" = b.password.map JVal.str) ∧
    (∀ s uid b out, adUserUpdatePatch s uid b = Except.ok out → out.2.status = 200 →
      out.2.body.lookup "password" = b.password.map JVal.str) ∧
    "password" ∉ adUserListSerializerFields ∧
    "password" ∉ adUserDetailSerializerFields := by
  refine ⟨?_, ?_, by decide, by decide⟩
  · intro s b out h
    unfold adUserCreatePost at h
    dsimp only [] at h
    repeat' split at h
    all_goals cases h
    rename_i xa su hsu xb names hnames xc lloc hlloc
    rw [adUserObjectsCreate_password _ _ _ _ _ _ _ _ hsu]
    simp [userCreateRespBody, List.lookup]
  · intro s uid b out h hst
    unfold adUserUpdatePatch at h
    dsimp only [] at h
    repeat' split at h
    all_goals cases h
    all_goals simp at hst
    all_goals simp [userUpdateRespBody, List.lookup]
    all_goals rename_i hpw hcond
    all_goals simp [hpw]

/-- Witness for C10: a concrete successful create and a concrete successful
update, both answering with the plaintext password. -/
theorem claim_C10_witness :
    adUserCreatePost emptyStore c9Body = Except.ok c10CreateOut ∧
      c10CreateOut.2.body.lookup "password" = c9Body.password.map JVal.str ∧
      adUserUpdatePatch c7Store 1 c10Body = Except.ok c10UpdOut ∧
      c10UpdOut.2.status = 200 ∧
      c10UpdOut.2.body.lookup "password" = c10Body.password.map JVal.str :=
  ⟨by decide,
    claim_C10_password_in_write_responses.1 emptyStore c9Body c10CreateOut (by decide),
    by decide, by decide,
    claim_C10_password_in_write_responses.2.1 c7Store 1 c10Body c10UpdOut
      (by decide) (by decide)⟩

/-- Witness for C8 over `c8Store` (users stored out of order, mixed published
flags): the record of "ann" appears with `total_ads` = 1. -/
theorem claim_C8_witness :
    c8ItemAnn ∈ (userListGet c8Store 5 none).items ∧
      c8ItemAnn.total_ads = totalAdsCount c8Store c8ItemAnn.id ∧
      List.Pairwise (fun a b : UserOut => charsLe a.username.toList b.username.toList = true)
        (userListGet c8Store 5 none).items :=
  ⟨by decide,
    (claim_C8_user_list_sorted_and_totals c8Store 5 none).2 c8ItemAnn (by decide),
    (claim_C8_user_list_sorted_and_totals c8Store 5 none).1⟩

end HW30
